import Mathlib

/-!
Verification development for a terminal CPU-usage monitor written in C
(`Real_time_cpu_monitoring_tool.c`).  The C code is shallowly embedded:

* `unsigned long long` counters become `Nat`; the two wrap-around
  subtractions in `calculate_cpu_usage` are made explicit with `% 2^64`.
* `double` arithmetic is modelled exactly over `ℚ` (all values the spec
  reasons about are small decimal fractions, far from any rounding
  boundary).
* File reads are abstracted to the parsed data they yield: `/proc/stat`
  becomes an `Option (List Nat)` (the whitespace-separated unsigned
  integers of its first line, `none` when the file is absent or
  unreadable), `/proc/cpuinfo` an `Option (List String)` (its lines).
* The main loop's mutable locals become a state record `MonState`, and
  one iteration of the `while` loop becomes the pure step `tick`.
-/

/-- Modulus of C's `unsigned long long` arithmetic. -/
def U64_MOD : Nat := 2 ^ 64

/-- The configuration constant `ALERT_THRESHOLD 80.0` (C line 18). -/
def ALERT_THRESHOLD : ℚ := 80

/-- Embedding of `calculate_cpu_usage` (C lines 160-173).  Counter
arguments are the `Nat` values of the C `unsigned long long`s; the two
unsigned subtractions are modelled with explicit wrap-around; the
`double` result is an exact rational. -/
def calculate_cpu_usage (prev_idle prev_total idle total : Nat) (ok : Bool) : ℚ :=
  if !ok then 0
  else if total ≤ prev_total ∨ prev_total = 0 then 0
  else
    let idle_diff : Nat := (idle + U64_MOD - prev_idle) % U64_MOD
    let total_diff : Nat := (total + U64_MOD - prev_total) % U64_MOD
    if total_diff = 0 then 0
    else
      let usage : ℚ := 100 * (1 - (idle_diff : ℚ) / (total_diff : ℚ))
      if usage < 0 then 0 else if usage > 100 then 100 else usage

/-- The usage formula as the spec words it: `idle_diff = curr.idle −
prev.idle`, `total_diff = curr.total − prev.total` (mathematical
differences), `100 × (1 − idle_diff/total_diff)` clamped into
`[0, 100]`. -/
def usageSpecFormula (prev_idle prev_total idle total : Nat) : ℚ :=
  let idle_diff : ℚ := (idle : ℚ) - (prev_idle : ℚ)
  let total_diff : ℚ := (total : ℚ) - (prev_total : ℚ)
  min 100 (max 0 (100 * (1 - idle_diff / total_diff)))

/-- Embedding of `get_cpu_times` (C lines 128-154).  The file read is
abstracted to its parsed outcome: `none` when `/proc/stat` cannot be
opened or its first line cannot be read, otherwise the list of unsigned
integers following the `cpu` marker on that line.  `sscanf` assigns at
most the 8 requested fields and leaves the rest at their initialisation
value `0` (hence `getD _ 0`); its return count is the number of fields
it could assign, `min fields.length 8`.  The two output sums are
`unsigned long long` additions, so they wrap modulo `2^64`.  The C
function signals failure through `*ok = 0`; here that is the `none`
result. -/
def get_cpu_times (src : Option (List Nat)) : Option (Nat × Nat) :=
  match src with
  | none => none
  | some fields =>
    let cnt := min fields.length 8
    if cnt < 4 then none
    else
      let user := fields.getD 0 0
      let nice := fields.getD 1 0
      let system := fields.getD 2 0
      let idle_time := fields.getD 3 0
      let iowait := fields.getD 4 0
      let irq := fields.getD 5 0
      let softirq := fields.getD 6 0
      let steal := fields.getD 7 0
      some ((idle_time + iowait) % U64_MOD,
            (user + nice + system + idle_time + iowait + irq + softirq + steal) % U64_MOD)

/-- The counter sums as the spec words them: `idle_ticks = idle +
iowait` and `total_ticks` = sum of all eight fields, as unbounded
mathematical sums with no wrap-around. -/
def cpuSumsSpec (fields : List Nat) : Nat × Nat :=
  (fields.getD 3 0 + fields.getD 4 0,
   fields.getD 0 0 + fields.getD 1 0 + fields.getD 2 0 + fields.getD 3 0 +
   fields.getD 4 0 + fields.getD 5 0 + fields.getD 6 0 + fields.getD 7 0)

/-- `strncmp(line, "processor", 9) == 0` (C line 119): the first 9
bytes of the line equal `"processor"`, i.e. the line starts with that
marker (`"processor"` is exactly 9 bytes long). -/
def is_processor_line (line : String) : Bool :=
  "processor".toList.isPrefixOf line.toList

/-- Embedding of `get_cpu_cores` (C lines 113-123).  The file read is
abstracted to its lines: `none` when `/proc/cpuinfo` cannot be opened.
The loop counts the lines that start with the `processor` marker. -/
def get_cpu_cores (src : Option (List String)) : Nat :=
  match src with
  | none => 1
  | some lines =>
    let cores := (lines.filter is_processor_line).length
    if cores > 0 then cores else 1

/-- The bar width constant, `usage_bar_width` (C line 299). -/
def usage_bar_width : Nat := 40

/-- C's `(int)` cast of a (finite, in-range) `double`: truncation toward
zero.  On `ℚ`, that is `num.tdiv den` (`Int.tdiv` truncates toward
zero). -/
def ratTrunc (q : ℚ) : Int := q.num.tdiv (q.den : Int)

/-- Embedding of the bar-fill computation (C lines 300-302):
`(int)((cpu_usage / 100.0) * usage_bar_width)` clamped into
`[0, usage_bar_width]`. -/
def usage_fill (cpu_usage : ℚ) : Int :=
  let f := ratTrunc (cpu_usage / 100 * (usage_bar_width : ℚ))
  if f < 0 then 0 else if f > (usage_bar_width : Int) then (usage_bar_width : Int) else f

/-- The bar as rendered by C lines 304-307: `[` at column 0, `#` at
columns `1..fill`, `-` at columns `fill+1..W`, `]` at column `W+1`. -/
def render_bar (cpu_usage : ℚ) : String :=
  let fill := (usage_fill cpu_usage).toNat
  "[" ++ String.mk (List.replicate fill '#')
      ++ String.mk (List.replicate (usage_bar_width - fill) '-') ++ "]"

/-- The mutable locals of `main`'s monitoring loop (C lines 259-263)
that persist across iterations, plus the per-tick alert decision
(C line 310). -/
structure MonState where
  prev_idle : Nat
  prev_total : Nat
  cpu_usage : ℚ
  max_usage : ℚ
  min_usage : ℚ
  alert : Bool
  deriving Repr, DecidableEq

/-- Initial values of the loop locals (C lines 259-262); no alert has
been evaluated yet. -/
def initState : MonState :=
  { prev_idle := 0, prev_total := 0, cpu_usage := 0,
    max_usage := 0, min_usage := 100, alert := false }

/-- One iteration of the `while (keep_running)` loop (C lines 267-336),
restricted to the state it carries across iterations.  The tick's
sampler outcome is the input `(idle, total, ok)`: `ok = false` leaves
`idle`/`total` meaningless, exactly as `get_cpu_times` leaves its out
parameters unwritten on failure.  In order: compute usage (line 269),
update the previous sample only if `ok` (lines 272-275), publish
`cpu_usage` and widen the extremes (lines 281-283), and evaluate the
alert predicate `cpu_usage >= ALERT_THRESHOLD` (line 310). -/
def tick (s : MonState) (idle total : Nat) (ok : Bool) : MonState :=
  let usage := calculate_cpu_usage s.prev_idle s.prev_total idle total ok
  { prev_idle := if ok then idle else s.prev_idle
    prev_total := if ok then total else s.prev_total
    cpu_usage := usage
    max_usage := if usage > s.max_usage then usage else s.max_usage
    min_usage := if usage < s.min_usage then usage else s.min_usage
    alert := decide (usage ≥ ALERT_THRESHOLD) }

/-- Run the loop body over a list of per-tick sampler outcomes starting
from an arbitrary state. -/
def runFrom (s : MonState) (inputs : List (Nat × Nat × Bool)) : MonState :=
  inputs.foldl (fun st p => tick st p.1 p.2.1 p.2.2) s

/-- A whole session: the loop run from the initial state. -/
def run (inputs : List (Nat × Nat × Bool)) : MonState :=
  runFrom initState inputs

/-- The extremes as the spec's Stats Tracker words them:
`update(extremes, usage)` yields `{max (extremes.max) usage,
min (extremes.min) usage}`.  The C code realises this with the two
conditional assignments of lines 282-283, applied to `max_usage` and
`min_usage` inside `tick`. -/
def updateExtremes (max_usage min_usage usage : ℚ) : ℚ × ℚ :=
  (if usage > max_usage then usage else max_usage,
   if usage < min_usage then usage else min_usage)

/-- The alert predicate as the spec words it:
`shouldAlert(usage, threshold) = usage ≥ threshold`. -/
def shouldAlertSpec (usage threshold : ℚ) : Bool := decide (usage ≥ threshold)

/-! ## Helper lemmas -/

/-- The two sequential clamping assignments of C lines 170-171 compute
the clamp of `u` into `[0, 100]`. -/
lemma clamp_if_eq_min_max (u : ℚ) :
    (if u < 0 then (0 : ℚ) else if u > 100 then 100 else u) = min 100 (max 0 u) := by
  simp only [min_def, max_def]
  split_ifs <;> linarith

lemma U64_MOD_pos : 0 < U64_MOD := by norm_num [U64_MOD]

/-- `calculate_cpu_usage` never returns a negative value: every branch
yields `0` or a value already clamped below by `0`. -/
lemma calculate_cpu_usage_nonneg (prev_idle prev_total idle total : Nat) (ok : Bool) :
    0 ≤ calculate_cpu_usage prev_idle prev_total idle total ok := by
  simp only [calculate_cpu_usage]
  split_ifs <;> norm_num
  linarith

/-- With the zero-value previous sample the guard `prev_total == 0`
forces the result `0`, whatever the current sample and `ok` are. -/
lemma usage_first_tick_zero (idle total : Nat) (ok : Bool) :
    calculate_cpu_usage 0 0 idle total ok = 0 := by
  cases ok <;> simp [calculate_cpu_usage]

/-- Once `min_usage` is `0` a tick keeps it `0`, because the tick's
usage is never negative. -/
lemma tick_min_zero (s : MonState) (idle total : Nat) (ok : Bool)
    (h : s.min_usage = 0) : (tick s idle total ok).min_usage = 0 := by
  have h0 := calculate_cpu_usage_nonneg s.prev_idle s.prev_total idle total ok
  simp only [tick, h]
  rw [if_neg (by linarith)]

lemma runFrom_cons (s : MonState) (p : Nat × Nat × Bool) (rest : List (Nat × Nat × Bool)) :
    runFrom s (p :: rest) = runFrom (tick s p.1 p.2.1 p.2.2) rest := rfl

lemma runFrom_min_zero (inputs : List (Nat × Nat × Bool)) (s : MonState)
    (h : s.min_usage = 0) : (runFrom s inputs).min_usage = 0 := by
  induction inputs generalizing s with
  | nil => exact h
  | cons p rest ih => exact ih _ (tick_min_zero s p.1 p.2.1 p.2.2 h)

/-- Per-tick facts about the extremes: they bracket the tick's usage,
the maximum never shrinks and the minimum never grows. -/
lemma tick_bounds (s : MonState) (idle total : Nat) (ok : Bool) :
    (tick s idle total ok).min_usage ≤ (tick s idle total ok).cpu_usage ∧
    (tick s idle total ok).cpu_usage ≤ (tick s idle total ok).max_usage ∧
    s.max_usage ≤ (tick s idle total ok).max_usage ∧
    (tick s idle total ok).min_usage ≤ s.min_usage := by
  simp only [tick]
  split_ifs <;> refine ⟨?_, ?_, ?_, ?_⟩ <;> linarith

lemma runFrom_extremes_monotone (inputs : List (Nat × Nat × Bool)) (s : MonState) :
    s.max_usage ≤ (runFrom s inputs).max_usage ∧
    (runFrom s inputs).min_usage ≤ s.min_usage := by
  induction inputs generalizing s with
  | nil => exact ⟨le_refl _, le_refl _⟩
  | cons p rest ih =>
    rw [runFrom_cons]
    have h1 := tick_bounds s p.1 p.2.1 p.2.2
    have h2 := ih (tick s p.1 p.2.1 p.2.2)
    exact ⟨h1.2.2.1.trans h2.1, h2.2.trans h1.2.2.2⟩

/-- C's cast-to-`int` of a nonnegative rational agrees with `Int.floor`
(truncation toward zero and flooring coincide on nonnegative values). -/
lemma ratTrunc_eq_floor_of_nonneg (q : ℚ) (h : 0 ≤ q) : ratTrunc q = Int.floor q := by
  rw [ratTrunc, Rat.floor_def]
  exact Int.tdiv_eq_ediv (Rat.num_nonneg.mpr h) (Int.ofNat_nonneg q.den)

/-! ## Claim theorems -/

/-- Claim C1, amended.  The claim as frozen omits two guards that the
code enforces: `calculate_cpu_usage` also returns `0.0` whenever
`prev_total == 0`, and its unsigned `idle - prev_idle` wraps around
when the idle counter decreases, clamping the result to `0` rather than
to `100`.  Amended statement: for u64 counter samples with `ok = true`,
`curr.total_ticks > prev.total_ticks`, `prev.total_ticks ≠ 0` and
`curr.idle ≥ prev.idle`, the function returns
`100 × (1 − idle_diff/total_diff)` clamped into `[0, 100]`; in
particular, for `prev = {idle 100, total 200}` and
`curr = {idle 150, total 400}` it returns exactly `75.0`. -/
theorem calculate_cpu_usage_eq_spec_formula :
    (∀ prev_idle prev_total idle total : Nat,
      prev_idle ≤ idle → idle < U64_MOD → total < U64_MOD →
      prev_total ≠ 0 → prev_total < total →
      calculate_cpu_usage prev_idle prev_total idle total true =
        usageSpecFormula prev_idle prev_total idle total) ∧
    calculate_cpu_usage 100 200 150 400 true = 75 := by
  constructor
  · intro pi pt i t hpi hi ht hpt0 hptt
    have hM := U64_MOD_pos
    have hidle : (i + U64_MOD - pi) % U64_MOD = i - pi := by
      have h1 : i + U64_MOD - pi = (i - pi) + U64_MOD := by omega
      rw [h1, Nat.add_mod_right, Nat.mod_eq_of_lt (by omega)]
    have htot : (t + U64_MOD - pt) % U64_MOD = t - pt := by
      have h1 : t + U64_MOD - pt = (t - pt) + U64_MOD := by omega
      rw [h1, Nat.add_mod_right, Nat.mod_eq_of_lt (by omega)]
    rw [calculate_cpu_usage, usageSpecFormula]
    simp only [Bool.not_true, hidle, htot]
    rw [if_neg (by simp), if_neg (by omega : ¬(t ≤ pt ∨ pt = 0)),
        if_neg (by omega : ¬(t - pt = 0))]
    rw [Nat.cast_sub hpi, Nat.cast_sub hptt.le]
    exact clamp_if_eq_min_max _
  · norm_num [calculate_cpu_usage, U64_MOD]

theorem calculate_cpu_usage_eq_spec_formula_witness :
    calculate_cpu_usage 100 200 150 400 true = usageSpecFormula 100 200 150 400 :=
  calculate_cpu_usage_eq_spec_formula.1 100 200 150 400 (by norm_num)
    (by norm_num [U64_MOD]) (by norm_num [U64_MOD]) (by norm_num) (by norm_num)

/-- Counterexample to claim C1 as frozen.  Both inputs satisfy the
claim's hypotheses (`ok = true`, `curr.total > prev.total`), and on
both the claimed clamped formula yields `100` while the code returns
`0`: the first because of the unstated `prev_total == 0` guard
(C line 162), the second because the unsigned `idle - prev_idle`
wraps around when the idle counter decreases (C line 166). -/
theorem calculate_cpu_usage_spec_formula_divergence :
    calculate_cpu_usage 0 0 0 100 true = 0 ∧ usageSpecFormula 0 0 0 100 = 100 ∧
    calculate_cpu_usage 100 100 50 200 true = 0 ∧ usageSpecFormula 100 100 50 200 = 100 := by
  refine ⟨?_, ?_, ?_, ?_⟩
  · norm_num [calculate_cpu_usage]
  · norm_num [usageSpecFormula, min_def, max_def]
  · norm_num [calculate_cpu_usage, U64_MOD]
  · norm_num [usageSpecFormula, min_def, max_def]

/-- Claim C2: `calculate_cpu_usage` returns `0.0` in every degenerate
case — when `ok = false`, when `curr.total_ticks ≤ prev.total_ticks`,
and on the first tick where the previous sample is the zero-value
sample `{0, 0}`, regardless of the current sample. -/
theorem calculate_cpu_usage_degenerate_zero :
    ∀ (prev_idle prev_total idle total : Nat) (ok : Bool),
      (ok = false → calculate_cpu_usage prev_idle prev_total idle total ok = 0) ∧
      (total ≤ prev_total → calculate_cpu_usage prev_idle prev_total idle total ok = 0) ∧
      calculate_cpu_usage 0 0 idle total ok = 0 := by
  intro pi pt i t ok
  refine ⟨?_, ?_, ?_⟩
  · rintro rfl
    simp [calculate_cpu_usage]
  · intro h
    cases ok <;> simp [calculate_cpu_usage, h]
  · cases ok <;> simp [calculate_cpu_usage]

theorem calculate_cpu_usage_degenerate_zero_witness :
    calculate_cpu_usage 1 5 2 3 false = 0 ∧
    calculate_cpu_usage 1 5 2 3 true = 0 ∧
    calculate_cpu_usage 0 0 9 9 true = 0 :=
  ⟨(calculate_cpu_usage_degenerate_zero 1 5 2 3 false).1 rfl,
   (calculate_cpu_usage_degenerate_zero 1 5 2 3 true).2.1 (by norm_num),
   (calculate_cpu_usage_degenerate_zero 0 0 9 9 true).2.2⟩

/-- Claim C3, amended.  The claim as frozen reads the two output sums
as unbounded integer sums, but the code adds `unsigned long long`
values, which wrap modulo `2^64` on representable field values.
Amended statement: `get_cpu_times` computes `idle_ticks` as
`(idle + iowait) mod 2^64` and `total_ticks` as the sum of all eight
parsed fields `mod 2^64` (u64 addition) — equal to the claim's
unwrapped sums whenever those sums fit in a u64 — and fails (returns
no sample, rather than terminating the process) exactly when the
source is unavailable or unreadable (`src = none`) or yields fewer
than four parseable unsigned integer fields. -/
theorem get_cpu_times_parse_and_failure :
    ∀ (src : Option (List Nat)) (fields : List Nat),
      (get_cpu_times src = none ↔ src = none ∨ ∃ f, src = some f ∧ f.length < 4) ∧
      (4 ≤ fields.length →
        get_cpu_times (some fields) =
          some ((fields.getD 3 0 + fields.getD 4 0) % U64_MOD,
                (fields.getD 0 0 + fields.getD 1 0 + fields.getD 2 0 + fields.getD 3 0 +
                 fields.getD 4 0 + fields.getD 5 0 + fields.getD 6 0 + fields.getD 7 0)
                  % U64_MOD)) ∧
      (4 ≤ fields.length →
        fields.getD 3 0 + fields.getD 4 0 < U64_MOD →
        fields.getD 0 0 + fields.getD 1 0 + fields.getD 2 0 + fields.getD 3 0 +
          fields.getD 4 0 + fields.getD 5 0 + fields.getD 6 0 + fields.getD 7 0 < U64_MOD →
        get_cpu_times (some fields) = some (cpuSumsSpec fields)) := by
  intro src fields
  refine ⟨?_, ?_, ?_⟩
  · cases src with
    | none => simp [get_cpu_times]
    | some f =>
      simp only [get_cpu_times]
      split_ifs with h
      · simp only [true_iff]
        exact Or.inr ⟨f, rfl, by omega⟩
      · simp only [reduceCtorEq, false_iff, not_or, not_exists, not_and]
        exact ⟨by simp, fun g hg => by cases hg; omega⟩
  · intro h
    simp only [get_cpu_times]
    rw [if_neg (by omega)]
  · intro h hidle htotal
    simp only [get_cpu_times, cpuSumsSpec]
    rw [if_neg (by omega), Nat.mod_eq_of_lt hidle, Nat.mod_eq_of_lt htotal]

theorem get_cpu_times_parse_and_failure_witness :
    get_cpu_times (some [1, 2, 3, 4, 5, 6, 7, 8]) = some (9, 36) ∧
    get_cpu_times (some [1, 2]) = none :=
  ⟨((get_cpu_times_parse_and_failure (some [1, 2, 3, 4, 5, 6, 7, 8])
      [1, 2, 3, 4, 5, 6, 7, 8]).2.2 (by norm_num) (by norm_num [U64_MOD])
      (by norm_num [U64_MOD])).trans (by norm_num [cpuSumsSpec]),
   (get_cpu_times_parse_and_failure (some [1, 2]) [1, 2]).1.mpr
     (Or.inr ⟨[1, 2], rfl, by norm_num⟩)⟩

/-- Counterexample to claim C3 as frozen.  All eight fields are
representable u64 values, yet both `unsigned long long` sums wrap: the
program computes `idle_ticks = 0` and `total_ticks = 0`, while the
claim's unwrapped sums are `2^64` and `2^65`. -/
theorem get_cpu_times_wrap_divergence :
    get_cpu_times
        (some [2 ^ 63, 0, 0, 2 ^ 63, 2 ^ 63, 2 ^ 63, 0, 0]) = some (0, 0) ∧
    cpuSumsSpec [2 ^ 63, 0, 0, 2 ^ 63, 2 ^ 63, 2 ^ 63, 0, 0] = (2 ^ 64, 2 ^ 65) := by
  constructor
  · norm_num [get_cpu_times, U64_MOD]
  · norm_num [cpuSumsSpec]

/-- Claim C4: the alert decision is the pure threshold predicate
`usage ≥ threshold` with the threshold fixed at `80.0`; usage `79.99`
triggers no alert while `80.0` does; and the decision of a tick depends
only on that tick's usage (no hysteresis or debounce: the same
predicate is re-evaluated from scratch whatever the previous state
was). -/
theorem alert_decision_pure_threshold :
    (∀ (s : MonState) (idle total : Nat) (ok : Bool),
      (tick s idle total ok).alert =
        shouldAlertSpec (tick s idle total ok).cpu_usage ALERT_THRESHOLD) ∧
    ALERT_THRESHOLD = 80 ∧
    shouldAlertSpec (7999 / 100) ALERT_THRESHOLD = false ∧
    shouldAlertSpec 80 ALERT_THRESHOLD = true := by
  refine ⟨fun s i t ok => rfl, rfl, ?_, ?_⟩ <;>
    norm_num [shouldAlertSpec, ALERT_THRESHOLD]

/-- Claim C5: the extremes start at `{max 0, min 100}`; after every
tick's update step `min_usage ≤ cpu_usage ≤ max_usage` holds; and
across any run of ticks `max_usage` is non-decreasing while
`min_usage` is non-increasing. -/
theorem extremes_invariant_and_monotone :
    (∀ (s : MonState) (idle total : Nat) (ok : Bool),
      (tick s idle total ok).min_usage ≤ (tick s idle total ok).cpu_usage ∧
      (tick s idle total ok).cpu_usage ≤ (tick s idle total ok).max_usage ∧
      s.max_usage ≤ (tick s idle total ok).max_usage ∧
      (tick s idle total ok).min_usage ≤ s.min_usage) ∧
    (∀ (inputs : List (Nat × Nat × Bool)) (s : MonState),
      s.max_usage ≤ (runFrom s inputs).max_usage ∧
      (runFrom s inputs).min_usage ≤ s.min_usage) ∧
    initState.max_usage = 0 ∧ initState.min_usage = 100 :=
  ⟨tick_bounds, fun inputs s => runFrom_extremes_monotone inputs s, rfl, rfl⟩

/-- Claim C6: the extremes update is idempotent — applying it twice
with the same usage equals applying it once; moreover the code's
conditional-assignment form equals the spec's
`{max (extremes.max) usage, min (extremes.min) usage}` form, and the
tick's extremes fields are exactly this update applied to the tick's
usage. -/
theorem updateExtremes_idempotent :
    (∀ mx mn u : ℚ,
      updateExtremes (updateExtremes mx mn u).1 (updateExtremes mx mn u).2 u =
        updateExtremes mx mn u) ∧
    (∀ mx mn u : ℚ, updateExtremes mx mn u = (max mx u, min mn u)) ∧
    (∀ (s : MonState) (idle total : Nat) (ok : Bool),
      ((tick s idle total ok).max_usage, (tick s idle total ok).min_usage) =
        updateExtremes s.max_usage s.min_usage (tick s idle total ok).cpu_usage) := by
  refine ⟨?_, ?_, fun s i t ok => rfl⟩
  · intro mx mn u
    simp only [updateExtremes]
    split_ifs <;> simp_all
  · intro mx mn u
    simp only [updateExtremes, max_def, min_def, Prod.mk.injEq]
    constructor <;> split_ifs <;> linarith

/-- Claim C7: for usage in `[0, 100]` the bar's fill count is
`⌊usage/100 × W⌋` with `W = usage_bar_width = 40`; the bar is rendered
as `[`, then fill-many `#`, then `W − fill` many `-`, then `]`; and
usage `0` gives fill `0`, usage `100` gives fill `40 = W`, usage `50`
gives fill `20`. -/
theorem usage_fill_is_floor :
    (∀ u : ℚ, 0 ≤ u → u ≤ 100 →
      usage_fill u = Int.floor (u / 100 * (usage_bar_width : ℚ))) ∧
    (∀ u : ℚ, render_bar u =
      "[" ++ String.mk (List.replicate (usage_fill u).toNat '#')
          ++ String.mk (List.replicate (usage_bar_width - (usage_fill u).toNat) '-') ++ "]") ∧
    usage_fill 0 = 0 ∧ usage_fill 100 = 40 ∧ usage_fill 50 = 20 := by
  refine ⟨?_, fun u => rfl, ?_, ?_, ?_⟩
  · intro u h0 h100
    have hv0 : 0 ≤ u / 100 * (usage_bar_width : ℚ) := by positivity
    have hf := ratTrunc_eq_floor_of_nonneg _ hv0
    have h1 : 0 ≤ Int.floor (u / 100 * (usage_bar_width : ℚ)) := Int.floor_nonneg.mpr hv0
    have h2 : Int.floor (u / 100 * (usage_bar_width : ℚ)) ≤ (usage_bar_width : Int) := by
      have hle : u / 100 * (usage_bar_width : ℚ) ≤ (usage_bar_width : ℚ) := by
        rw [div_mul_eq_mul_div, div_le_iff₀ (by norm_num : (0 : ℚ) < 100)]
        have hw : (0 : ℚ) ≤ (usage_bar_width : ℚ) := by positivity
        nlinarith
      calc Int.floor (u / 100 * (usage_bar_width : ℚ))
          ≤ Int.floor ((usage_bar_width : ℚ)) := Int.floor_le_floor hle
        _ = (usage_bar_width : Int) := Int.floor_natCast _
    rw [usage_fill, hf, if_neg (by omega), if_neg (by omega)]
  · norm_num [usage_fill, ratTrunc, usage_bar_width]
  · norm_num [usage_fill, ratTrunc, usage_bar_width]
  · norm_num [usage_fill, ratTrunc, usage_bar_width]

theorem usage_fill_is_floor_witness :
    usage_fill 50 = Int.floor ((50 : ℚ) / 100 * (usage_bar_width : ℚ)) :=
  usage_fill_is_floor.1 50 (by norm_num) (by norm_num)

/-- Claim C8: `get_cpu_cores` counts the lines starting with the
`processor` marker, returns `1` when the source is unavailable or the
count is zero, and for every possible input returns at least `1`. -/
theorem get_cpu_cores_always_pos :
    ∀ (src : Option (List String)) (lines : List String),
      1 ≤ get_cpu_cores src ∧
      get_cpu_cores none = 1 ∧
      ((lines.filter is_processor_line).length = 0 → get_cpu_cores (some lines) = 1) ∧
      (0 < (lines.filter is_processor_line).length →
        get_cpu_cores (some lines) = (lines.filter is_processor_line).length) := by
  intro src lines
  refine ⟨?_, rfl, ?_, ?_⟩
  · cases src with
    | none => exact le_refl 1
    | some l =>
      simp only [get_cpu_cores]
      split_ifs with h <;> omega
  · intro h
    simp only [get_cpu_cores]
    rw [if_neg (by omega)]
  · intro h
    simp only [get_cpu_cores]
    rw [if_pos (by omega)]

theorem get_cpu_cores_always_pos_witness :
    get_cpu_cores (some ["processor : 0", "flags : fpu"]) = 1 ∧
    get_cpu_cores (some ["flags : fpu"]) = 1 :=
  ⟨((get_cpu_cores_always_pos (some ["processor : 0", "flags : fpu"])
      ["processor : 0", "flags : fpu"]).2.2.2 (by decide)).trans (by decide),
   (get_cpu_cores_always_pos (some ["flags : fpu"]) ["flags : fpu"]).2.2.1 (by decide)⟩

/-- Claim C9: a tick overwrites the stored previous counter sample with
the current one exactly when the sample was validly obtained
(`ok = true`); on `ok = false` both previous-sample fields are left
unchanged. -/
theorem tick_prev_sample_frame :
    ∀ (s : MonState) (idle total : Nat),
      (tick s idle total false).prev_idle = s.prev_idle ∧
      (tick s idle total false).prev_total = s.prev_total ∧
      (tick s idle total true).prev_idle = idle ∧
      (tick s idle total true).prev_total = total :=
  fun _ _ _ => ⟨rfl, rfl, rfl, rfl⟩

/-- Claim C10: the first tick's usage is necessarily `0` (the previous
sample starts as the zero-value sample), and in every session with at
least one tick the running minimum is `0` after the first iteration
and stays `0` for the rest of the session. -/
theorem min_usage_stuck_at_zero :
    (∀ (idle total : Nat) (ok : Bool), (tick initState idle total ok).cpu_usage = 0) ∧
    (∀ (first : Nat × Nat × Bool) (rest : List (Nat × Nat × Bool)),
      (run (first :: rest)).min_usage = 0) := by
  constructor
  · intro i t ok
    simp only [tick, initState]
    exact usage_first_tick_zero i t ok
  · intro p rest
    rw [run, runFrom_cons]
    apply runFrom_min_zero
    have hu := usage_first_tick_zero p.1 p.2.1 p.2.2
    simp only [tick, initState, hu]
    norm_num
